import Mathlib

set_option autoImplicit false

/-
Verification development for the translation resolution engine of the
`chinese_dictionary` repository (`src/api_handler.py`).

The engine is embedded shallowly:
* the Python `dict` cache is an association list with Python's in-place
  update semantics (`dictGet` / `dictInsert`);
* the handler's mutable state (`self.cache`, the backing cache file and the
  rate limiter) is the explicit record `Handler`; wall-clock time is not
  representable, so the rate limiter is modelled by the count of
  `_rate_limit` invocations, which is exactly what the spec's claims about
  "touching the rate limiter" observe;
* the external collaborators (the `hashlib.md5` digest, the HTTP responses
  of each provider, and the `googletrans` library) are an environment `Env`
  of oracles: one pure function per external interaction;
* side effects (network requests, rate-limiter acquisition, the inter-item
  sleep of batch mode) are recorded in an explicit `Event` trace returned
  next to the result and the new state.
-/

namespace ChineseDictionary

/-- Python `str.strip()`: drop leading and trailing whitespace characters
(executable over the character list so that concrete instances evaluate by
kernel reduction; `Char.isWhitespace` covers the ASCII whitespace the
repository's inputs use). -/
def strip (s : String) : String :=
  String.mk (((s.data.dropWhile Char.isWhitespace).reverse.dropWhile Char.isWhitespace).reverse)

/-- Python `str.lower()`: character-wise case folding. -/
def lower (s : String) : String :=
  String.mk (s.data.map Char.toLower)

/-- Python slicing `s[:n]`: the first `n` characters. -/
def take_chars (s : String) (n : Nat) : String :=
  String.mk (s.data.take n)

/-- Python dict lookup `m.get(k)` on the association-list model of a dict:
returns the value of the first (and in a well-formed dict, only) binding of
the key. -/
def dictGet (m : List (String × String)) (k : String) : Option String :=
  match m with
  | [] => none
  | (k', v) :: rest => if k' = k then some v else dictGet rest k

/-- Python dict insertion `m[k] = v`: overwrites the binding in place when
the key is present, otherwise appends a new binding (Python dicts keep
insertion order). -/
def dictInsert (m : List (String × String)) (k v : String) : List (String × String) :=
  match m with
  | [] => [(k, v)]
  | (k', v') :: rest => if k' = k then (k, v) :: rest else (k', v') :: dictInsert rest k v

/-- One entry of `self.api_endpoints`: url, wire-format tag and
human-readable description, as in `TranslationAPIHandler.__init__`. -/
structure EndpointConfig where
  url : String
  type : String
  description : String
deriving DecidableEq, Repr

/-- The fixed provider list `self.api_endpoints` from
`TranslationAPIHandler.__init__`, in configured priority order. -/
def api_endpoints : List EndpointConfig :=
  [ { url := "https://api.mymemory.translated.net/get",
      type := "mymemory",
      description := "MyMemory Free API" },
    { url := "https://libretranslate.de/translate",
      type := "libretranslate",
      description := "LibreTranslate Germany" },
    { url := "https://translate.argosopentech.com/translate",
      type := "libretranslate",
      description := "Argos Open Tech" },
    { url := "https://lingva.ml/api/v1",
      type := "lingva",
      description := "Lingva Translate" } ]

/-- `self.source_lang` -/
def source_lang : String := "zh"

/-- `self.target_lang` -/
def target_lang : String := "vi"

/-- `self.max_retries`, used as the attempt cap of the retry strategy in
`_create_session` (`Retry(total=self.max_retries, ...)`). -/
def max_retries : Nat := 3

/-- `status_forcelist=[429, 500, 502, 503, 504]` from `_create_session`:
the transient HTTP statuses the transport retries on. -/
def status_forcelist : List Nat := [429, 500, 502, 503, 504]

/-- Parsed JSON fields of a MyMemory response that `_try_mymemory` reads:
the HTTP status, `data.get("responseStatus")` (absent modelled as `none`)
and `data.get("responseData", {}).get("translatedText", "")` (defaulted to
the empty string, as in the source). -/
structure MyMemoryResponse where
  status_code : Nat
  responseStatus : Option Nat
  translatedText : String
deriving DecidableEq, Repr

/-- Body of `_try_mymemory` after `session.get` has returned the response
`r` (the request itself, and the exceptions it may raise, live in
`try_endpoint`). Python `str.strip` is modelled by `strip` and
`str.lower` by `lower`. -/
def try_mymemory (text : String) (r : MyMemoryResponse) : Bool × String :=
  if r.status_code = 200 then
    if r.responseStatus = some 200 then
      let translation := strip r.translatedText
      if translation ≠ "" ∧ lower translation ≠ lower text then
        (true, translation)
      else (false, "MyMemory failed: " ++ toString r.status_code)
    else (false, "MyMemory failed: " ++ toString r.status_code)
  else (false, "MyMemory failed: " ++ toString r.status_code)

/-- Parsed fields of a LibreTranslate response that `_try_libretranslate`
reads: the HTTP status, the `"translatedText"` field when present, and the
raw body text used in the failure message. -/
structure LibreResponse where
  status_code : Nat
  translatedText : Option String
  text : String
deriving DecidableEq, Repr

/-- Body of `_try_libretranslate` after `session.post` has returned `r`. -/
def try_libretranslate (r : LibreResponse) : Bool × String :=
  if r.status_code = 200 then
    match r.translatedText with
    | some s =>
      let translation := strip s
      if translation ≠ "" then (true, translation)
      else (false, "LibreTranslate failed: " ++ toString r.status_code ++ " - " ++ take_chars r.text 100)
    | none => (false, "LibreTranslate failed: " ++ toString r.status_code ++ " - " ++ take_chars r.text 100)
  else (false, "LibreTranslate failed: " ++ toString r.status_code ++ " - " ++ take_chars r.text 100)

/-- Parsed fields of a Lingva response that `_try_lingva` reads. -/
structure LingvaResponse where
  status_code : Nat
  translation : Option String
deriving DecidableEq, Repr

/-- Body of `_try_lingva` after `session.get` has returned `r`. -/
def try_lingva (r : LingvaResponse) : Bool × String :=
  if r.status_code = 200 then
    match r.translation with
    | some s =>
      let translation := strip s
      if translation ≠ "" then (true, translation)
      else (false, "Lingva failed: " ++ toString r.status_code)
    | none => (false, "Lingva failed: " ++ toString r.status_code)
  else (false, "Lingva failed: " ++ toString r.status_code)

/-- Hex digit used by the percent encoder (uppercase, as
`urllib.parse.quote` produces). -/
def hex_digit (n : Nat) : Char :=
  if n < 10 then Char.ofNat (48 + n) else Char.ofNat (55 + n)

/-- Characters `urllib.parse.quote` leaves unescaped with its default
`safe="/"`: ASCII letters, digits, `-` `.` `_` `~` and `/`. -/
def is_url_safe (b : UInt8) : Bool :=
  (65 ≤ b.toNat && b.toNat ≤ 90) || (97 ≤ b.toNat && b.toNat ≤ 122) ||
  (48 ≤ b.toNat && b.toNat ≤ 57) ||
  b.toNat == 45 || b.toNat == 46 || b.toNat == 95 || b.toNat == 126 || b.toNat == 47

/-- Percent-encode one UTF-8 byte. -/
def quote_byte (b : UInt8) : String :=
  if is_url_safe b then String.singleton (Char.ofNat b.toNat)
  else String.mk [Char.ofNat 37, hex_digit (b.toNat / 16), hex_digit (b.toNat % 16)]

/-- Models `urllib.parse.quote` (an external library function): the UTF-8
bytes of the text, with every byte outside the safe set percent-encoded. -/
def urlquote (s : String) : String :=
  s.toUTF8.toList.foldl (fun acc b => acc ++ quote_byte b) ""

/-- The URL `_try_lingva` builds:
`{endpoint_url}/{source_lang}/{target_lang}/{quote(text)}`. -/
def lingva_request_url (endpoint_url text : String) : String :=
  endpoint_url ++ "/" ++ source_lang ++ "/" ++ target_lang ++ "/" ++ urlquote text

/-- Observable outcome of the external `googletrans` library call made by
`_try_googletrans_fallback`: the import may fail, the call may raise, or it
returns a result whose `.text` is modelled as `none` when the result object
or its text is falsy. -/
inductive GtransOutcome where
  | importError
  | exception (msg : String)
  | result (text : Option String)
deriving DecidableEq, Repr

/-- `_try_googletrans_fallback`: last-resort adapter over the external
`googletrans` client; catches its own exceptions and applies the same
anti-echo check as the MyMemory adapter. -/
def try_googletrans_fallback (text : String) (o : GtransOutcome) : Bool × String :=
  match o with
  | GtransOutcome.importError => (false, "googletrans not installed")
  | GtransOutcome.exception e => (false, "googletrans error: " ++ e)
  | GtransOutcome.result none => (false, "No translation returned")
  | GtransOutcome.result (some rt) =>
    if rt ≠ "" ∧ strip rt ≠ "" then
      let translation := strip rt
      if lower translation ≠ lower text then (true, translation)
      else (false, "No translation returned")
    else (false, "No translation returned")

/-- The external world one handler call interacts with, one oracle per
external collaborator.  `md5_hexdigest` models
`hashlib.md5(text.encode("utf-8")).hexdigest()`: an arbitrary deterministic
digest function (every theorem below holds for every such function, which
is precisely the property the cache-key design relies on).  The three HTTP
oracles map a request (endpoint url and text, or the full Lingva url) to
either a parsed response or an exception message (`Except.error` covers
both connection failures and JSON parse failures, which
`_try_endpoint` catches uniformly).  `save_ok` tells whether the
`_save_cache` file write succeeds (its failure is logged and swallowed). -/
structure Env where
  md5_hexdigest : String → String
  mymemory : String → String → Except String MyMemoryResponse
  libretranslate : String → String → Except String LibreResponse
  lingva : String → Except String LingvaResponse
  googletrans : String → GtransOutcome
  save_ok : Bool

/-- Mutable state of a `TranslationAPIHandler`: the in-memory cache dict,
the backing `translation_cache.json` file (`none` when absent, otherwise
its persisted mapping), and the rate limiter (modelled as the number of
completed `_rate_limit` calls, since wall-clock time is external). -/
structure Handler where
  cache : List (String × String)
  cache_file : Option (List (String × String))
  rate_limit_count : Nat
deriving DecidableEq, Repr

/-- Observable side effects of one call, in order of occurrence. -/
inductive Event where
  | rateLimit
  | netCall (url : String)
  | gtransCall
  | interSleep
deriving DecidableEq, Repr

/-- `_get_cache_key`: the MD5 hex digest of the text. -/
def get_cache_key (env : Env) (text : String) : String :=
  env.md5_hexdigest text

/-- `_try_endpoint`: dispatch on the endpoint's `type` tag, converting any
exception raised by the inner adapter into `(False, "Error: ...")`.  A
known endpoint type issues exactly one HTTP request (recorded as a
`netCall` event at the endpoint's configured url); an unknown type performs
no request at all. -/
def try_endpoint (env : Env) (text : String) (cfg : EndpointConfig) :
    (Bool × String) × List Event :=
  if cfg.type = "mymemory" then
    match env.mymemory cfg.url text with
    | Except.error e => ((false, "Error: " ++ e), [Event.netCall cfg.url])
    | Except.ok r => (try_mymemory text r, [Event.netCall cfg.url])
  else if cfg.type = "libretranslate" then
    match env.libretranslate cfg.url text with
    | Except.error e => ((false, "Error: " ++ e), [Event.netCall cfg.url])
    | Except.ok r => (try_libretranslate r, [Event.netCall cfg.url])
  else if cfg.type = "lingva" then
    match env.lingva (lingva_request_url cfg.url text) with
    | Except.error e => ((false, "Error: " ++ e), [Event.netCall cfg.url])
    | Except.ok r => (try_lingva r, [Event.netCall cfg.url])
  else ((false, "Unknown endpoint type: " ++ cfg.type), [])

/-- The provider loop of `translate_text`: try each endpoint in order,
stop at the first success (returning its translation and its config),
accumulate the events of every attempted endpoint. -/
def provider_sweep (env : Env) (text : String) :
    List EndpointConfig → Option (String × EndpointConfig) × List Event
  | [] => (none, [])
  | cfg :: rest =>
    let r := try_endpoint env text cfg
    if r.1.1 then (some (r.1.2, cfg), r.2)
    else
      let tail_r := provider_sweep env text rest
      (tail_r.1, r.2 ++ tail_r.2)

/-- `self.cache[cache_key] = translation` followed by `_save_cache()`:
the in-memory dict is updated, and the full mapping is persisted when the
write succeeds (a failed write is swallowed, leaving the file as it was). -/
def cache_put (env : Env) (st : Handler) (key value : String) : Handler :=
  let c := dictInsert st.cache key value
  { st with cache := c, cache_file := if env.save_ok then some c else st.cache_file }

/-- The error message of the empty-input guard of `translate_text`. -/
def empty_input_message : String := "Văn bản đầu vào trống"

/-- The error message of the exhausted-failure branch of `translate_text`. -/
def all_failed_message (text : String) : String :=
  "Không thể dịch \x27" ++ text ++ "\x27 - tất cả API endpoints và fallback đều không khả dụng"

/-- `TranslationAPIHandler.translate_text`: validate, check the cache,
rate-limit, sweep the providers in configured order, fall back to
googletrans, and only then fail.  Returns the `(success, translation or
error, used endpoint)` triple together with the new handler state and the
event trace. -/
def translate_text (env : Env) (st : Handler) (chinese_text : String) :
    (Bool × String × String) × Handler × List Event :=
  if strip chinese_text = "" then ((false, empty_input_message, "none"), st, [])
  else
    let text := strip chinese_text
    let cache_key := get_cache_key env text
    match dictGet st.cache cache_key with
    | some cached => ((true, cached, "cache"), st, [])
    | none =>
      let st1 : Handler := { st with rate_limit_count := st.rate_limit_count + 1 }
      match provider_sweep env text api_endpoints with
      | (some (translation, cfg), evs) =>
        ((true, translation, cfg.description), cache_put env st1 cache_key translation,
          Event.rateLimit :: evs)
      | (none, evs) =>
        let fb := try_googletrans_fallback text (env.googletrans text)
        if fb.1 then
          ((true, fb.2, "googletrans-fallback"), cache_put env st1 cache_key fb.2,
            Event.rateLimit :: evs ++ [Event.gtransCall])
        else
          ((false, all_failed_message text, "failed"), st1,
            Event.rateLimit :: evs ++ [Event.gtransCall])

/-- One element of the list `translate_batch` returns. -/
structure BatchItem where
  index : Nat
  original : String
  success : Bool
  translation : String
  error : String
  endpoint : String
deriving DecidableEq, Repr

/-- The result entry `translate_batch` appends for a blank input. -/
def blank_item (i : Nat) (text : String) : BatchItem :=
  { index := i, original := text, success := false, translation := "",
    error := "Văn bản trống", endpoint := "none" }

/-- The loop of `translate_batch`, carrying the running index and handler
state.  A blank input is answered immediately (its `continue` also skips
the inter-item sleep); a non-blank input goes through `translate_text`,
and a `time.sleep(0.1)` event separates it from a following item. -/
def translate_batch_go (env : Env) (st : Handler) (i : Nat) :
    List String → List BatchItem × Handler × List Event
  | [] => ([], st, [])
  | text :: rest =>
    if strip text = "" then
      let r := translate_batch_go env st (i + 1) rest
      (blank_item i text :: r.1, r.2)
    else
      let one := translate_text env st text
      let item : BatchItem :=
        { index := i, original := strip text, success := one.1.1,
          translation := if one.1.1 then one.1.2.1 else "",
          error := if one.1.1 then "" else one.1.2.1,
          endpoint := one.1.2.2 }
      let sleep_evs : List Event := if rest = [] then [] else [Event.interSleep]
      let r := translate_batch_go env one.2.1 (i + 1) rest
      (item :: r.1, r.2.1, one.2.2 ++ sleep_evs ++ r.2.2)

/-- `TranslationAPIHandler.translate_batch`. -/
def translate_batch (env : Env) (st : Handler) (texts : List String) :
    List BatchItem × Handler × List Event :=
  translate_batch_go env st 0 texts

/-- `TranslationAPIHandler.clear_cache`: record the entry count, empty the
in-memory dict, and remove the backing file when it exists (`remove_ok`
tells whether the external `os.remove` succeeds; its failure is logged and
swallowed, leaving the file in place). -/
def clear_cache (st : Handler) (remove_ok : Bool) : Nat × Handler :=
  let cache_size := st.cache.length
  let st1 : Handler := { st with cache := [] }
  let st2 : Handler :=
    match st1.cache_file with
    | some _ => if remove_ok then { st1 with cache_file := none } else st1
    | none => st1
  (cache_size, st2)

/-- The fields of `get_cache_stats` the model can observe: the in-memory
entry count and whether the backing file exists (the byte size reported by
the source comes from `os.path.getsize`, an external filesystem call). -/
structure CacheStats where
  total_entries : Nat
  cache_file_exists : Bool
deriving DecidableEq, Repr

/-- `TranslationAPIHandler.get_cache_stats`. -/
def get_cache_stats (st : Handler) : CacheStats :=
  { total_entries := st.cache.length, cache_file_exists := st.cache_file.isSome }

/-- Outcome of the retrying transport: a response whose status is not in
the forcelist, or exhaustion; both carry the number of requests issued. -/
inductive TransportResult where
  | success (status attempts : Nat)
  | failure (last_status attempts : Nat)
deriving DecidableEq, Repr

/-- Modelled from the spec: the retry engine itself lives in `urllib3`
(an external library); the repository only configures it in
`_create_session` with `total=self.max_retries`,
`status_forcelist=[429, 500, 502, 503, 504]` and exponential backoff.
Following spec section 4.3, an attempt whose status is in the forcelist is
retried until the capped total number of attempts is reached; the first
non-transient status is returned as a success.  `resp i` is the status the
server answers to the `i`-th request (0-based); backoff delays are
wall-clock time and are not modelled. -/
def transport_go (resp : Nat → Nat) : Nat → Nat → TransportResult
  | 0, made => TransportResult.failure (resp (made - 1)) made
  | fuel + 1, made =>
    let s := resp made
    if s ∈ status_forcelist then transport_go resp fuel (made + 1)
    else TransportResult.success s (made + 1)

/-- Modelled from the spec: `RetryingTransport.execute` with the attempt
cap `max_attempts` (configured to `max_retries` by `_create_session`). -/
def retrying_transport (resp : Nat → Nat) (max_attempts : Nat) : TransportResult :=
  transport_go resp max_attempts 0

/-- A concrete test environment: MyMemory answers 500, the first
LibreTranslate instance translates, the remaining providers are
unreachable and `googletrans` is not installed. -/
def envA : Env :=
  { md5_hexdigest := fun s => s ++ "#md5"
    mymemory := fun _ _ =>
      Except.ok { status_code := 500, responseStatus := none, translatedText := "" }
    libretranslate := fun url _ =>
      if url = "https://libretranslate.de/translate" then
        Except.ok { status_code := 200, translatedText := some " xin chào ", text := "ok" }
      else Except.error "connection refused"
    lingva := fun _ => Except.error "connection refused"
    googletrans := fun _ => GtransOutcome.importError
    save_ok := true }

/-- A concrete environment in which every provider and the fallback fail. -/
def envFail : Env :=
  { md5_hexdigest := fun s => s ++ "#md5"
    mymemory := fun _ _ => Except.error "connection refused"
    libretranslate := fun _ _ => Except.error "connection refused"
    lingva := fun _ => Except.error "connection refused"
    googletrans := fun _ => GtransOutcome.importError
    save_ok := true }

/-- A freshly initialised handler with no cache file present. -/
def handler0 : Handler := { cache := [], cache_file := none, rate_limit_count := 0 }

/-- A junk `BatchItem` used only as the default of `List.getD`. -/
def junk_item : BatchItem :=
  { index := 0, original := "", success := false, translation := "", error := "", endpoint := "" }

/-- The first configured endpoint (MyMemory), named for concrete tests. -/
def mm_cfg : EndpointConfig :=
  { url := "https://api.mymemory.translated.net/get",
    type := "mymemory", description := "MyMemory Free API" }

/-- The second configured endpoint (LibreTranslate Germany). -/
def libre_de_cfg : EndpointConfig :=
  { url := "https://libretranslate.de/translate",
    type := "libretranslate", description := "LibreTranslate Germany" }

/-- The third configured endpoint (Argos Open Tech). -/
def argos_cfg : EndpointConfig :=
  { url := "https://translate.argosopentech.com/translate",
    type := "libretranslate", description := "Argos Open Tech" }

/-- The fourth configured endpoint (Lingva). -/
def lingva_cfg : EndpointConfig :=
  { url := "https://lingva.ml/api/v1",
    type := "lingva", description := "Lingva Translate" }

theorem dictGet_dictInsert_self (m : List (String × String)) (k v : String) :
    dictGet (dictInsert m k v) k = some v := by
  induction m with
  | nil => simp [dictInsert, dictGet]
  | cons p rest ih =>
    obtain ⟨k', v'⟩ := p
    by_cases h : k' = k
    · simp [dictInsert, dictGet, h]
    · simp [dictInsert, dictGet, h, ih]

theorem dictInsert_values_nonempty (m : List (String × String)) (k v : String)
    (hm : ∀ p ∈ m, p.2 ≠ "") (hv : v ≠ "") :
    ∀ p ∈ dictInsert m k v, p.2 ≠ "" := by
  induction m with
  | nil => simpa [dictInsert] using hv
  | cons q rest ih =>
    obtain ⟨k', v'⟩ := q
    by_cases h : k' = k
    · simp only [dictInsert, h, if_pos rfl]
      intro p hp
      rcases List.mem_cons.mp hp with h1 | h2
      · simpa [h1] using hv
      · exact hm p (List.mem_cons_of_mem _ h2)
    · simp only [dictInsert, if_neg h]
      intro p hp
      rcases List.mem_cons.mp hp with h1 | h2
      · exact hm p (h1 ▸ List.mem_cons_self _ _)
      · exact ih (fun q hq => hm q (List.mem_cons_of_mem _ hq)) p h2

theorem try_mymemory_success_nonempty (text : String) (r : MyMemoryResponse)
    (h : (try_mymemory text r).1 = true) : (try_mymemory text r).2 ≠ "" := by
  simp only [try_mymemory] at h ⊢
  split_ifs at h ⊢ with h1 h2 h3
  exact h3.1

theorem try_libretranslate_success_nonempty (r : LibreResponse)
    (h : (try_libretranslate r).1 = true) : (try_libretranslate r).2 ≠ "" := by
  by_cases h1 : r.status_code = 200
  · cases hm : r.translatedText with
    | none => simp [try_libretranslate, h1, hm] at h
    | some s =>
      by_cases h2 : strip s = ""
      · simp [try_libretranslate, h1, hm, h2] at h
      · simp [try_libretranslate, h1, hm, h2]
  · simp [try_libretranslate, h1] at h

theorem try_lingva_success_nonempty (r : LingvaResponse)
    (h : (try_lingva r).1 = true) : (try_lingva r).2 ≠ "" := by
  by_cases h1 : r.status_code = 200
  · cases hm : r.translation with
    | none => simp [try_lingva, h1, hm] at h
    | some s =>
      by_cases h2 : strip s = ""
      · simp [try_lingva, h1, hm, h2] at h
      · simp [try_lingva, h1, hm, h2]
  · simp [try_lingva, h1] at h

theorem try_googletrans_fallback_success_nonempty (text : String) (o : GtransOutcome)
    (h : (try_googletrans_fallback text o).1 = true) :
    (try_googletrans_fallback text o).2 ≠ "" := by
  cases o with
  | importError => cases h
  | exception e => cases h
  | result t =>
    cases t with
    | none => cases h
    | some rt =>
      simp only [try_googletrans_fallback] at h ⊢
      split_ifs at h ⊢ with h1 h2
      exact h1.2

theorem try_endpoint_success_nonempty (env : Env) (text : String) (cfg : EndpointConfig)
    (h : (try_endpoint env text cfg).1.1 = true) : (try_endpoint env text cfg).1.2 ≠ "" := by
  unfold try_endpoint at h ⊢
  split_ifs at h ⊢ with h1 h2 h3
  · cases hm : env.mymemory cfg.url text with
    | error e => simp [hm] at h
    | ok r => simp only [hm] at h ⊢; exact try_mymemory_success_nonempty text r h
  · cases hm : env.libretranslate cfg.url text with
    | error e => simp [hm] at h
    | ok r => simp only [hm] at h ⊢; exact try_libretranslate_success_nonempty r h
  · cases hm : env.lingva (lingva_request_url cfg.url text) with
    | error e => simp [hm] at h
    | ok r => simp only [hm] at h ⊢; exact try_lingva_success_nonempty r h

theorem api_endpoints_known_type :
    ∀ cfg ∈ api_endpoints,
      cfg.type = "mymemory" ∨ cfg.type = "libretranslate" ∨ cfg.type = "lingva" := by
  decide

theorem try_endpoint_events (env : Env) (text : String) (cfg : EndpointConfig)
    (h : cfg.type = "mymemory" ∨ cfg.type = "libretranslate" ∨ cfg.type = "lingva") :
    (try_endpoint env text cfg).2 = [Event.netCall cfg.url] := by
  rcases h with h | h | h
  · simp only [try_endpoint, h]
    cases env.mymemory cfg.url text <;> simp
  · simp only [try_endpoint, h]
    cases env.libretranslate cfg.url text <;> simp
  · simp only [try_endpoint, h]
    cases env.lingva (lingva_request_url cfg.url text) <;> simp

theorem provider_sweep_nil (env : Env) (text : String) :
    provider_sweep env text [] = (none, []) := rfl

theorem provider_sweep_cons_fail (env : Env) (text : String) (cfg : EndpointConfig)
    (rest : List EndpointConfig) (h : (try_endpoint env text cfg).1.1 = false) :
    provider_sweep env text (cfg :: rest) =
      ((provider_sweep env text rest).1,
       (try_endpoint env text cfg).2 ++ (provider_sweep env text rest).2) := by
  simp [provider_sweep, h]

theorem provider_sweep_cons_success (env : Env) (text : String) (cfg : EndpointConfig)
    (rest : List EndpointConfig) (h : (try_endpoint env text cfg).1.1 = true) :
    provider_sweep env text (cfg :: rest) =
      (some ((try_endpoint env text cfg).1.2, cfg), (try_endpoint env text cfg).2) := by
  simp [provider_sweep, h]

theorem provider_sweep_all_fail (env : Env) (text : String) (l : List EndpointConfig)
    (h : ∀ c ∈ l, (try_endpoint env text c).1.1 = false) :
    provider_sweep env text l = (none, l.flatMap fun c => (try_endpoint env text c).2) := by
  induction l with
  | nil => rfl
  | cons cfg rest ih =>
    rw [provider_sweep_cons_fail env text cfg rest (h cfg (List.mem_cons_self _ _)),
        ih (fun c hc => h c (List.mem_cons_of_mem _ hc))]
    simp

theorem provider_sweep_append_fail (env : Env) (text : String)
    (pre l : List EndpointConfig)
    (h : ∀ c ∈ pre, (try_endpoint env text c).1.1 = false) :
    provider_sweep env text (pre ++ l) =
      ((provider_sweep env text l).1,
       (pre.flatMap fun c => (try_endpoint env text c).2) ++ (provider_sweep env text l).2) := by
  induction pre with
  | nil => simp
  | cons cfg rest ih =>
    rw [List.cons_append,
        provider_sweep_cons_fail env text cfg (rest ++ l) (h cfg (List.mem_cons_self _ _)),
        ih (fun c hc => h c (List.mem_cons_of_mem _ hc))]
    simp

theorem provider_sweep_success_nonempty (env : Env) (text : String)
    (l : List EndpointConfig) (tr : String) (cfg : EndpointConfig)
    (h : (provider_sweep env text l).1 = some (tr, cfg)) : tr ≠ "" := by
  induction l with
  | nil => simp [provider_sweep] at h
  | cons c rest ih =>
    by_cases hc : (try_endpoint env text c).1.1 = true
    · rw [provider_sweep_cons_success env text c rest hc] at h
      simp only [Option.some.injEq, Prod.mk.injEq] at h
      exact h.1 ▸ try_endpoint_success_nonempty env text c hc
    · rw [provider_sweep_cons_fail env text c rest (Bool.eq_false_iff.mpr hc)] at h
      exact ih h

theorem translate_text_of_empty (env : Env) (st : Handler) (t : String)
    (h : strip t = "") :
    translate_text env st t = ((false, empty_input_message, "none"), st, []) := by
  simp [translate_text, h]

theorem translate_text_of_hit (env : Env) (st : Handler) (t v : String)
    (hne : strip t ≠ "")
    (hhit : dictGet st.cache (get_cache_key env (strip t)) = some v) :
    translate_text env st t = ((true, v, "cache"), st, []) := by
  simp [translate_text, hne, hhit]

theorem translate_text_of_sweep_success (env : Env) (st : Handler) (t tr : String)
    (cfg : EndpointConfig) (evs : List Event) (hne : strip t ≠ "")
    (hmiss : dictGet st.cache (get_cache_key env (strip t)) = none)
    (hsweep : provider_sweep env (strip t) api_endpoints = (some (tr, cfg), evs)) :
    translate_text env st t =
      ((true, tr, cfg.description),
       cache_put env { st with rate_limit_count := st.rate_limit_count + 1 }
         (get_cache_key env (strip t)) tr,
       Event.rateLimit :: evs) := by
  simp [translate_text, hne, hmiss, hsweep]

theorem translate_text_of_fallback_success (env : Env) (st : Handler) (t : String)
    (evs : List Event) (hne : strip t ≠ "")
    (hmiss : dictGet st.cache (get_cache_key env (strip t)) = none)
    (hsweep : provider_sweep env (strip t) api_endpoints = (none, evs))
    (hfb : (try_googletrans_fallback (strip t) (env.googletrans (strip t))).1 = true) :
    translate_text env st t =
      ((true, (try_googletrans_fallback (strip t) (env.googletrans (strip t))).2,
        "googletrans-fallback"),
       cache_put env { st with rate_limit_count := st.rate_limit_count + 1 }
         (get_cache_key env (strip t))
         (try_googletrans_fallback (strip t) (env.googletrans (strip t))).2,
       Event.rateLimit :: evs ++ [Event.gtransCall]) := by
  simp [translate_text, hne, hmiss, hsweep, hfb]

theorem translate_text_of_all_fail (env : Env) (st : Handler) (t : String)
    (evs : List Event) (hne : strip t ≠ "")
    (hmiss : dictGet st.cache (get_cache_key env (strip t)) = none)
    (hsweep : provider_sweep env (strip t) api_endpoints = (none, evs))
    (hfb : (try_googletrans_fallback (strip t) (env.googletrans (strip t))).1 = false) :
    translate_text env st t =
      ((false, all_failed_message (strip t), "failed"),
       { st with rate_limit_count := st.rate_limit_count + 1 },
       Event.rateLimit :: evs ++ [Event.gtransCall]) := by
  simp [translate_text, hne, hmiss, hsweep, hfb]

theorem cache_put_lookup (env : Env) (st : Handler) (key value : String) :
    dictGet (cache_put env st key value).cache key = some value := by
  simp [cache_put, dictGet_dictInsert_self]

theorem translate_text_success_cached (env : Env) (st : Handler) (t : String)
    (hsucc : (translate_text env st t).1.1 = true) :
    dictGet ((translate_text env st t).2.1).cache (get_cache_key env (strip t)) =
      some ((translate_text env st t).1.2.1) := by
  by_cases he : strip t = ""
  · rw [translate_text_of_empty env st t he] at hsucc
    cases hsucc
  · cases hhit : dictGet st.cache (get_cache_key env (strip t)) with
    | some v =>
      rw [translate_text_of_hit env st t v he hhit]
      exact hhit
    | none =>
      rcases hsweep : provider_sweep env (strip t) api_endpoints with ⟨o, evs⟩
      cases o with
      | some p =>
        obtain ⟨tr, cfg⟩ := p
        rw [translate_text_of_sweep_success env st t tr cfg evs he hhit hsweep]
        exact cache_put_lookup env _ _ _
      | none =>
        cases hfb : (try_googletrans_fallback (strip t) (env.googletrans (strip t))).1 with
        | false =>
          rw [translate_text_of_all_fail env st t evs he hhit hsweep hfb] at hsucc
          cases hsucc
        | true =>
          rw [translate_text_of_fallback_success env st t evs he hhit hsweep hfb]
          exact cache_put_lookup env _ _ _

theorem flatMap_singleton_eq_map (l : List EndpointConfig)
    (f : EndpointConfig → List Event) (g : EndpointConfig → Event)
    (h : ∀ a ∈ l, f a = [g a]) : l.flatMap f = l.map g := by
  induction l with
  | nil => rfl
  | cons x xs ih =>
    simp [h x (List.mem_cons_self _ _), ih (fun a ha => h a (List.mem_cons_of_mem _ ha))]

theorem dictGet_nonempty (m : List (String × String)) (k v : String)
    (h : dictGet m k = some v) (hm : ∀ p ∈ m, p.2 ≠ "") : v ≠ "" := by
  induction m with
  | nil => cases h
  | cons p rest ih =>
    obtain ⟨k', v'⟩ := p
    by_cases hk : k' = k
    · simp [dictGet, hk] at h
      exact h ▸ hm (k', v') (List.mem_cons_self _ _)
    · simp [dictGet, hk] at h
      exact ih h (fun q hq => hm q (List.mem_cons_of_mem _ hq))

theorem cache_put_preserves_nonempty (env : Env) (st : Handler) (key value : String)
    (hinv : ∀ p ∈ st.cache, p.2 ≠ "") (hv : value ≠ "") :
    ∀ p ∈ (cache_put env st key value).cache, p.2 ≠ "" := by
  simp only [cache_put]
  exact dictInsert_values_nonempty st.cache key value hinv hv

theorem translate_text_preserves_nonempty (env : Env) (st : Handler) (t : String)
    (hinv : ∀ p ∈ st.cache, p.2 ≠ "") :
    ∀ p ∈ ((translate_text env st t).2.1).cache, p.2 ≠ "" := by
  by_cases he : strip t = ""
  · rw [translate_text_of_empty env st t he]; exact hinv
  · cases hhit : dictGet st.cache (get_cache_key env (strip t)) with
    | some v =>
      rw [translate_text_of_hit env st t v he hhit]; exact hinv
    | none =>
      rcases hsweep : provider_sweep env (strip t) api_endpoints with ⟨o, evs⟩
      cases o with
      | some p =>
        obtain ⟨tr, cfg⟩ := p
        rw [translate_text_of_sweep_success env st t tr cfg evs he hhit hsweep]
        exact cache_put_preserves_nonempty env _ _ _ hinv
          (provider_sweep_success_nonempty env (strip t) api_endpoints tr cfg
            (by rw [hsweep]))
      | none =>
        cases hfb : (try_googletrans_fallback (strip t) (env.googletrans (strip t))).1 with
        | false =>
          rw [translate_text_of_all_fail env st t evs he hhit hsweep hfb]
          exact hinv
        | true =>
          rw [translate_text_of_fallback_success env st t evs he hhit hsweep hfb]
          exact cache_put_preserves_nonempty env _ _ _ hinv
            (try_googletrans_fallback_success_nonempty (strip t) _ hfb)

theorem translate_batch_go_cons_blank (env : Env) (st : Handler) (i : Nat)
    (t : String) (rest : List String) (hb : strip t = "") :
    translate_batch_go env st i (t :: rest) =
      (blank_item i t :: (translate_batch_go env st (i + 1) rest).1,
       (translate_batch_go env st (i + 1) rest).2) := by
  simp [translate_batch_go, hb]

theorem translate_batch_go_cons_item (env : Env) (st : Handler) (i : Nat)
    (t : String) (rest : List String) (hb : ¬ strip t = "") :
    translate_batch_go env st i (t :: rest) =
      ({ index := i, original := strip t, success := (translate_text env st t).1.1,
         translation := if (translate_text env st t).1.1 then (translate_text env st t).1.2.1 else "",
         error := if (translate_text env st t).1.1 then "" else (translate_text env st t).1.2.1,
         endpoint := (translate_text env st t).1.2.2 } ::
         (translate_batch_go env (translate_text env st t).2.1 (i + 1) rest).1,
       (translate_batch_go env (translate_text env st t).2.1 (i + 1) rest).2.1,
       (translate_text env st t).2.2 ++ (if rest = [] then [] else [Event.interSleep]) ++
         (translate_batch_go env (translate_text env st t).2.1 (i + 1) rest).2.2) := by
  simp [translate_batch_go, hb]

theorem translate_batch_go_preserves_nonempty (env : Env) (texts : List String) :
    ∀ (st : Handler) (i : Nat), (∀ p ∈ st.cache, p.2 ≠ "") →
      ∀ p ∈ ((translate_batch_go env st i texts).2.1).cache, p.2 ≠ "" := by
  induction texts with
  | nil => intro st i h; simpa [translate_batch_go] using h
  | cons t rest ih =>
    intro st i h
    by_cases hb : strip t = ""
    · rw [translate_batch_go_cons_blank env st i t rest hb]
      exact ih st (i + 1) h
    · rw [translate_batch_go_cons_item env st i t rest hb]
      exact ih _ (i + 1) (translate_text_preserves_nonempty env st t h)

theorem translate_batch_go_length (env : Env) (texts : List String) :
    ∀ (st : Handler) (i : Nat),
      (translate_batch_go env st i texts).1.length = texts.length := by
  induction texts with
  | nil => intro st i; rfl
  | cons t rest ih =>
    intro st i
    by_cases hb : strip t = ""
    · rw [translate_batch_go_cons_blank env st i t rest hb]
      simp [ih]
    · rw [translate_batch_go_cons_item env st i t rest hb]
      simp [ih]

theorem translate_batch_go_index (env : Env) (texts : List String) :
    ∀ (st : Handler) (i j : Nat), j < texts.length →
      ((translate_batch_go env st i texts).1.getD j junk_item).index = i + j := by
  induction texts with
  | nil => intro st i j hj; cases hj
  | cons t rest ih =>
    intro st i j hj
    by_cases hb : strip t = ""
    · rw [translate_batch_go_cons_blank env st i t rest hb]
      cases j with
      | zero => simp [blank_item]
      | succ j' =>
        have hj' : j' < rest.length := Nat.lt_of_succ_lt_succ hj
        simp only [List.getD_cons_succ]
        rw [ih st (i + 1) j' hj']
        omega
    · rw [translate_batch_go_cons_item env st i t rest hb]
      cases j with
      | zero => simp
      | succ j' =>
        have hj' : j' < rest.length := Nat.lt_of_succ_lt_succ hj
        simp only [List.getD_cons_succ]
        rw [ih _ (i + 1) j' hj']
        omega

theorem translate_batch_go_blank (env : Env) (texts : List String) :
    ∀ (st : Handler) (i j : Nat), j < texts.length → strip (texts.getD j "") = "" →
      (translate_batch_go env st i texts).1.getD j junk_item =
        blank_item (i + j) (texts.getD j "") := by
  induction texts with
  | nil => intro st i j hj; cases hj
  | cons t rest ih =>
    intro st i j hj hblank
    cases j with
    | zero =>
      simp only [List.getD_cons_zero] at hblank ⊢
      rw [translate_batch_go_cons_blank env st i t rest hblank]
      simp
    | succ j' =>
      have hj' : j' < rest.length := Nat.lt_of_succ_lt_succ hj
      simp only [List.getD_cons_succ] at hblank ⊢
      by_cases hb : strip t = ""
      · rw [translate_batch_go_cons_blank env st i t rest hb]
        simp only [List.getD_cons_succ]
        rw [ih st (i + 1) j' hj' hblank]
        congr 1
        omega
      · rw [translate_batch_go_cons_item env st i t rest hb]
        simp only [List.getD_cons_succ]
        rw [ih _ (i + 1) j' hj' hblank]
        congr 1
        omega

/-- Claim C1: for every text that is non-empty after trimming, if a first
call to `translate_text` returns a success, then an immediately following
second call for the identical text returns a success with the same
translated text and `sourceProviderLabel` equal to `"cache"`, leaves the
handler state (cache, backing file, rate limiter) unchanged, and performs
no network call and no rate-limiter wait (empty event trace). -/
theorem claim_C1_second_call_hits_cache (env : Env) (st : Handler) (t : String)
    (hne : strip t ≠ "") (hsucc : (translate_text env st t).1.1 = true) :
    translate_text env (translate_text env st t).2.1 t =
      ((true, (translate_text env st t).1.2.1, "cache"),
       (translate_text env st t).2.1, []) :=
  translate_text_of_hit env _ t _ hne (translate_text_success_cached env st t hsucc)

/-- Witness for C1 on a concrete run: a fresh handler, MyMemory failing,
LibreTranslate Germany answering, second call served from cache. -/
theorem claim_C1_second_call_hits_cache_witness :
    (strip "你好" ≠ "" ∧ (translate_text envA handler0 "你好").1.1 = true) ∧
    translate_text envA (translate_text envA handler0 "你好").2.1 "你好" =
      ((true, (translate_text envA handler0 "你好").1.2.1, "cache"),
       (translate_text envA handler0 "你好").2.1, []) :=
  ⟨⟨by decide, by decide⟩,
   claim_C1_second_call_hits_cache envA handler0 "你好" (by decide) (by decide)⟩

/-- Claim C4: an input that is empty or whitespace-only makes
`translate_text` return a failure immediately with no side effects at
all: the handler state is returned unchanged (no cache write, no rate
limiter bump) and the event trace is empty (no rate-limiter wait, no
provider or network call). -/
theorem claim_C4_empty_input_no_side_effects (env : Env) (st : Handler) (t : String)
    (h : strip t = "") :
    translate_text env st t = ((false, empty_input_message, "none"), st, []) :=
  translate_text_of_empty env st t h

/-- Witness for C4 at the whitespace-only input `"  "`. -/
theorem claim_C4_empty_input_no_side_effects_witness :
    strip "  " = "" ∧
    translate_text envFail handler0 "  " =
      ((false, empty_input_message, "none"), handler0, []) :=
  ⟨by decide, claim_C4_empty_input_no_side_effects envFail handler0 "  " (by decide)⟩

/-- Claim C5: with the configured attempt cap (`max_retries = 3`), the
transport answering the status sequence [503, 503, 200] returns the
successful 200 response (on the third attempt); answering 503 forever it
returns a failure after exactly 3 attempts; and no fourth request is ever
issued — a server that would answer 200 from the fourth request on still
yields the same three-attempt failure. -/
theorem claim_C5_retry_transport :
    retrying_transport (fun i => [503, 503, 200].getD i 0) max_retries =
      TransportResult.success 200 3 ∧
    retrying_transport (fun _ => 503) max_retries = TransportResult.failure 503 3 ∧
    retrying_transport (fun i => if i < 3 then 503 else 200) max_retries =
      TransportResult.failure 503 3 :=
  ⟨by decide, by decide, by decide⟩

/-- Claim C6: the two adapter variants implementing the anti-echo check —
the MyMemory adapter and the googletrans fallback — report failure
whenever the translation they would return is case-insensitively identical
to the input text; they never report success on an echo. -/
theorem claim_C6_anti_echo (text : String) :
    (∀ r : MyMemoryResponse, lower (strip r.translatedText) = lower text →
       (try_mymemory text r).1 = false) ∧
    (∀ rt : String, lower (strip rt) = lower text →
       (try_googletrans_fallback text (GtransOutcome.result (some rt))).1 = false) := by
  constructor
  · intro r hecho
    simp only [try_mymemory]
    split_ifs with h1 h2 h3
    · exact absurd hecho h3.2
    all_goals rfl
  · intro rt hecho
    simp only [try_googletrans_fallback]
    split_ifs with h1 h2
    · exact absurd hecho h2
    all_goals rfl

/-- Witness for C6: a MyMemory 200-response echoing `" 你好 "` for input
`"你好"` is rejected, as is a googletrans result echoing `"HELLO"` for
input `"hello"`. -/
theorem claim_C6_anti_echo_witness :
    (lower (strip " 你好 ") = lower "你好" ∧
     (try_mymemory "你好"
        { status_code := 200, responseStatus := some 200,
          translatedText := " 你好 " }).1 = false) ∧
    (lower (strip "HELLO") = lower "hello" ∧
     (try_googletrans_fallback "hello" (GtransOutcome.result (some "HELLO"))).1 = false) :=
  ⟨⟨by decide, (claim_C6_anti_echo "你好").1 _ (by decide)⟩,
   ⟨by decide, (claim_C6_anti_echo "hello").2 "HELLO" (by decide)⟩⟩

/-- Claim C8: `clear_cache` (with the external file removal succeeding)
removes all N entries of the in-memory mapping, deletes the backing store
file and returns N; `get_cache_stats` afterwards reports 0 entries and a
non-existing backing store. -/
theorem claim_C8_clear_cache (st : Handler) :
    (clear_cache st true).1 = st.cache.length ∧
    (clear_cache st true).2.cache = [] ∧
    (clear_cache st true).2.cache_file = none ∧
    get_cache_stats (clear_cache st true).2 =
      { total_entries := 0, cache_file_exists := false } := by
  cases hf : st.cache_file <;> simp [clear_cache, get_cache_stats, hf]

/-- Claim C9: the cache key is a deterministic function of the trimmed
text — equal trimmed texts always get the same key — and the key is used
identically for lookup and insertion, so a cache entry created by a
successful resolve of one text is hit when resolving any other text with
the same trimmed form, which is then served from the cache. -/
theorem claim_C9_cache_key_deterministic (env : Env) (st : Handler) (a b : String)
    (hab : strip a = strip b) (hne : strip a ≠ "")
    (hsucc : (translate_text env st a).1.1 = true) :
    get_cache_key env (strip a) = get_cache_key env (strip b) ∧
    translate_text env (translate_text env st a).2.1 b =
      ((true, (translate_text env st a).1.2.1, "cache"),
       (translate_text env st a).2.1, []) := by
  constructor
  · rw [hab]
  · apply translate_text_of_hit
    · rw [← hab]; exact hne
    · rw [← hab]; exact translate_text_success_cached env st a hsucc

/-- Witness for C9 with `" 你好 "` and `"你好"`, whose trimmed forms agree. -/
theorem claim_C9_cache_key_deterministic_witness :
    (strip " 你好 " = strip "你好" ∧ strip " 你好 " ≠ "" ∧
     (translate_text envA handler0 " 你好 ").1.1 = true) ∧
    (get_cache_key envA (strip " 你好 ") = get_cache_key envA (strip "你好") ∧
     translate_text envA (translate_text envA handler0 " 你好 ").2.1 "你好" =
       ((true, (translate_text envA handler0 " 你好 ").1.2.1, "cache"),
        (translate_text envA handler0 " 你好 ").2.1, [])) :=
  ⟨⟨by decide, by decide, by decide⟩,
   claim_C9_cache_key_deterministic envA handler0 " 你好 " "你好"
     (by decide) (by decide) (by decide)⟩

/-- Claim C2: on a cache miss, `translate_text` tries the configured
adapters in their fixed configured order and stops at the first success:
if every endpoint before `cfg` fails and `cfg` succeeds with translation
`tr`, the call returns a success carrying `cfg`'s description, the
translation is written to the cache, and the event trace is exactly one
rate-limiter wait followed by one network call per attempted endpoint up
to and including `cfg` — no later endpoint is invoked. -/
theorem claim_C2_first_success_wins (env : Env) (st : Handler) (t tr : String)
    (pre post : List EndpointConfig) (cfg : EndpointConfig)
    (hsplit : api_endpoints = pre ++ cfg :: post)
    (hne : strip t ≠ "")
    (hmiss : dictGet st.cache (get_cache_key env (strip t)) = none)
    (hpre : ∀ c ∈ pre, (try_endpoint env (strip t) c).1.1 = false)
    (hcfg : (try_endpoint env (strip t) cfg).1 = (true, tr)) :
    (translate_text env st t).1 = (true, tr, cfg.description) ∧
    dictGet ((translate_text env st t).2.1).cache (get_cache_key env (strip t)) = some tr ∧
    (translate_text env st t).2.2 =
      Event.rateLimit ::
        (pre.map fun c => Event.netCall c.url) ++ [Event.netCall cfg.url] := by
  have h1 : (try_endpoint env (strip t) cfg).1.1 = true := by rw [hcfg]
  have h2 : (try_endpoint env (strip t) cfg).1.2 = tr := by rw [hcfg]
  have hcfg_mem : cfg ∈ api_endpoints := by
    rw [hsplit]; exact List.mem_append_right _ (List.mem_cons_self _ _)
  have hpre_mem : ∀ c ∈ pre, c ∈ api_endpoints := fun c hc => by
    rw [hsplit]; exact List.mem_append_left _ hc
  have hsweep : provider_sweep env (strip t) api_endpoints =
      (some (tr, cfg),
       (pre.map fun c => Event.netCall c.url) ++ [Event.netCall cfg.url]) := by
    rw [hsplit, provider_sweep_append_fail env (strip t) pre _ hpre,
        provider_sweep_cons_success env (strip t) cfg post h1, h2,
        flatMap_singleton_eq_map pre _ (fun c => Event.netCall c.url)
          (fun c hc => try_endpoint_events env (strip t) c
            (api_endpoints_known_type c (hpre_mem c hc))),
        try_endpoint_events env (strip t) cfg (api_endpoints_known_type cfg hcfg_mem)]
  refine ⟨?_, ?_, ?_⟩
  · rw [translate_text_of_sweep_success env st t tr cfg _ hne hmiss hsweep]
  · rw [translate_text_of_sweep_success env st t tr cfg _ hne hmiss hsweep]
    exact cache_put_lookup env _ _ _
  · rw [translate_text_of_sweep_success env st t tr cfg _ hne hmiss hsweep]
    rfl

/-- Witness for C2: MyMemory (the whole `pre`) fails, LibreTranslate
Germany succeeds, and the two remaining configured endpoints are never
called. -/
theorem claim_C2_first_success_wins_witness :
    (api_endpoints = [mm_cfg] ++ libre_de_cfg :: [argos_cfg, lingva_cfg] ∧
     strip "你好" ≠ "" ∧
     dictGet handler0.cache (get_cache_key envA (strip "你好")) = none ∧
     (∀ c ∈ [mm_cfg], (try_endpoint envA (strip "你好") c).1.1 = false) ∧
     (try_endpoint envA (strip "你好") libre_de_cfg).1 = (true, "xin chào")) ∧
    ((translate_text envA handler0 "你好").1 =
       (true, "xin chào", libre_de_cfg.description) ∧
     dictGet ((translate_text envA handler0 "你好").2.1).cache
       (get_cache_key envA (strip "你好")) = some "xin chào" ∧
     (translate_text envA handler0 "你好").2.2 =
       Event.rateLimit ::
         ([mm_cfg].map fun c => Event.netCall c.url) ++
           [Event.netCall libre_de_cfg.url]) :=
  ⟨⟨by decide, by decide, by decide, by decide, by decide⟩,
   claim_C2_first_success_wins envA handler0 "你好" "xin chào"
     [mm_cfg] [argos_cfg, lingva_cfg] libre_de_cfg
     (by decide) (by decide) (by decide) (by decide) (by decide)⟩

/-- Claim C3: if every configured provider and the googletrans fallback
fail on a cache miss, `translate_text` returns a failure outcome with
label `"failed"` and leaves the cache and the backing file unchanged
(only the rate limiter advanced) — no negative caching — so an
immediately following call for the same text performs the full provider
sweep again: the second call returns the same failure and its event trace
again contains the rate-limiter wait, one network call per configured
endpoint and the fallback attempt. -/
theorem claim_C3_exhausted_failure_not_cached (env : Env) (st : Handler) (t : String)
    (hne : strip t ≠ "")
    (hmiss : dictGet st.cache (get_cache_key env (strip t)) = none)
    (hfail : ∀ c ∈ api_endpoints, (try_endpoint env (strip t) c).1.1 = false)
    (hfb : (try_googletrans_fallback (strip t) (env.googletrans (strip t))).1 = false) :
    translate_text env st t =
      ((false, all_failed_message (strip t), "failed"),
       { st with rate_limit_count := st.rate_limit_count + 1 },
       Event.rateLimit ::
         (api_endpoints.map fun c => Event.netCall c.url) ++ [Event.gtransCall]) ∧
    translate_text env { st with rate_limit_count := st.rate_limit_count + 1 } t =
      ((false, all_failed_message (strip t), "failed"),
       { st with rate_limit_count := st.rate_limit_count + 2 },
       Event.rateLimit ::
         (api_endpoints.map fun c => Event.netCall c.url) ++ [Event.gtransCall]) := by
  have hsweep : provider_sweep env (strip t) api_endpoints =
      (none, api_endpoints.map fun c => Event.netCall c.url) := by
    rw [provider_sweep_all_fail env (strip t) api_endpoints hfail,
        flatMap_singleton_eq_map _ _ _
          (fun c hc => try_endpoint_events env (strip t) c
            (api_endpoints_known_type c hc))]
  exact ⟨translate_text_of_all_fail env st t _ hne hmiss hsweep hfb,
         translate_text_of_all_fail env { st with rate_limit_count := st.rate_limit_count + 1 }
           t _ hne hmiss hsweep hfb⟩

/-- Witness for C3 in the environment where every provider connection is
refused and googletrans is not installed. -/
theorem claim_C3_exhausted_failure_not_cached_witness :
    (strip "你好" ≠ "" ∧
     dictGet handler0.cache (get_cache_key envFail (strip "你好")) = none ∧
     (∀ c ∈ api_endpoints, (try_endpoint envFail (strip "你好") c).1.1 = false) ∧
     (try_googletrans_fallback (strip "你好")
        (envFail.googletrans (strip "你好"))).1 = false) ∧
    (translate_text envFail handler0 "你好" =
       ((false, all_failed_message (strip "你好"), "failed"),
        { handler0 with rate_limit_count := handler0.rate_limit_count + 1 },
        Event.rateLimit ::
          (api_endpoints.map fun c => Event.netCall c.url) ++ [Event.gtransCall]) ∧
     translate_text envFail { handler0 with rate_limit_count := handler0.rate_limit_count + 1 } "你好" =
       ((false, all_failed_message (strip "你好"), "failed"),
        { handler0 with rate_limit_count := handler0.rate_limit_count + 2 },
        Event.rateLimit ::
          (api_endpoints.map fun c => Event.netCall c.url) ++ [Event.gtransCall])) :=
  ⟨⟨by decide, by decide, by decide, by decide⟩,
   claim_C3_exhausted_failure_not_cached envFail handler0 "你好"
     (by decide) (by decide) (by decide) (by decide)⟩

/-- Claim C7: `translate_batch` returns exactly one result per input, in
input order, each result's `index` field equal to the input's position;
a blank (whitespace-only) input produces the immediate per-item failure
entry (`success = false`, endpoint `"none"`), and a blank item is
processed with no state change and no event at all — no cache lookup
effect, no rate-limiter wait, no provider call: the remaining items run
from the identical handler state and contribute the whole event trace. -/
theorem claim_C7_batch_order (env : Env) (st : Handler) (texts : List String) :
    (translate_batch env st texts).1.length = texts.length ∧
    (∀ j, j < texts.length →
       ((translate_batch env st texts).1.getD j junk_item).index = j) ∧
    (∀ j, j < texts.length → strip (texts.getD j "") = "" →
       (translate_batch env st texts).1.getD j junk_item =
         blank_item j (texts.getD j "")) ∧
    (∀ i t rest, strip t = "" →
       translate_batch_go env st i (t :: rest) =
         (blank_item i t :: (translate_batch_go env st (i + 1) rest).1,
          (translate_batch_go env st (i + 1) rest).2)) := by
  refine ⟨translate_batch_go_length env texts st 0, fun j hj => ?_,
          fun j hj hb => ?_,
          fun i t rest hb => translate_batch_go_cons_blank env st i t rest hb⟩
  · have h := translate_batch_go_index env texts st 0 j hj
    simpa [translate_batch] using h
  · have h := translate_batch_go_blank env texts st 0 j hj hb
    simpa [translate_batch] using h

/-- Witness for C7 on the spec's example batch `["", "你好", "  "]`. -/
theorem claim_C7_batch_order_witness :
    (translate_batch envA handler0 ["", "你好", "  "]).1.length = 3 ∧
    ((translate_batch envA handler0 ["", "你好", "  "]).1.getD 1 junk_item).index = 1 ∧
    (translate_batch envA handler0 ["", "你好", "  "]).1.getD 0 junk_item =
      blank_item 0 "" ∧
    (translate_batch envA handler0 ["", "你好", "  "]).1.getD 2 junk_item =
      blank_item 2 "  " :=
  ⟨(claim_C7_batch_order envA handler0 ["", "你好", "  "]).1,
   (claim_C7_batch_order envA handler0 ["", "你好", "  "]).2.1 1 (by decide),
   (claim_C7_batch_order envA handler0 ["", "你好", "  "]).2.2.1 0 (by decide) (by decide),
   (claim_C7_batch_order envA handler0 ["", "你好", "  "]).2.2.1 2 (by decide) (by decide)⟩

/-- Claim C10: every value ever stored in the cache is a non-empty
string: adapters only report success with a translation that is non-empty
after stripping, and `translate_text` writes to the cache only on
success, so the invariant "all cached translations are non-empty" is
preserved by every single resolve and every batch call; consequently a
cache hit always returns a non-empty translation. -/
theorem claim_C10_cache_values_nonempty (env : Env) (st : Handler)
    (hinv : ∀ p ∈ st.cache, p.2 ≠ "") :
    (∀ t, ∀ p ∈ ((translate_text env st t).2.1).cache, p.2 ≠ "") ∧
    (∀ texts, ∀ p ∈ ((translate_batch env st texts).2.1).cache, p.2 ≠ "") ∧
    (∀ t v, strip t ≠ "" → dictGet st.cache (get_cache_key env (strip t)) = some v →
       (translate_text env st t).1 = (true, v, "cache") ∧ v ≠ "") :=
  ⟨fun t => translate_text_preserves_nonempty env st t hinv,
   fun texts => translate_batch_go_preserves_nonempty env texts st 0 hinv,
   fun t v hne hhit =>
     ⟨by rw [translate_text_of_hit env st t v hne hhit],
      dictGet_nonempty st.cache _ v hhit hinv⟩⟩

/-- Witness for C10 starting from the empty cache of a fresh handler. -/
theorem claim_C10_cache_values_nonempty_witness :
    (∀ p ∈ handler0.cache, p.2 ≠ "") ∧
    (∀ p ∈ ((translate_text envA handler0 "你好").2.1).cache, p.2 ≠ "") ∧
    (∀ p ∈ ((translate_batch envA handler0 ["", "你好", "  "]).2.1).cache, p.2 ≠ "") :=
  ⟨by decide,
   (claim_C10_cache_values_nonempty envA handler0 (by decide)).1 "你好",
   (claim_C10_cache_values_nonempty envA handler0 (by decide)).2.1 ["", "你好", "  "]⟩

end ChineseDictionary
